import Mathlib

/-
Verification of the two-body fractal rigid-body simulation core
(vector/quaternion algebra, gravity, orientation integration,
sphere-marched narrow phase, impulse response) as a shallow embedding
over the real numbers.  All definitions are translated directly from
src/src/physics.h; each struct field and each arithmetic step follows
the source line by line, with C style in-place mutation rendered as
functional record updates.
-/

noncomputable section

namespace Metharizon

/-- 3D vector with real components, mirroring `struct Vec3`. -/
structure Vec3 where
  x : ℝ
  y : ℝ
  z : ℝ

/-- Quaternion with real components, mirroring `struct Quat`. -/
structure Quat where
  w : ℝ
  x : ℝ
  y : ℝ
  z : ℝ

def vadd (a b : Vec3) : Vec3 := ⟨a.x + b.x, a.y + b.y, a.z + b.z⟩

def vsub (a b : Vec3) : Vec3 := ⟨a.x - b.x, a.y - b.y, a.z - b.z⟩

def vscale (a : Vec3) (s : ℝ) : Vec3 := ⟨a.x * s, a.y * s, a.z * s⟩

def vdivs (a : Vec3) (s : ℝ) : Vec3 := ⟨a.x / s, a.y / s, a.z / s⟩

instance : Add Vec3 := ⟨vadd⟩

instance : Sub Vec3 := ⟨vsub⟩

instance : HMul Vec3 ℝ Vec3 := ⟨vscale⟩

instance : HDiv Vec3 ℝ Vec3 := ⟨vdivs⟩

@[simp] theorem vadd_def (a b : Vec3) : a + b = ⟨a.x + b.x, a.y + b.y, a.z + b.z⟩ := rfl

@[simp] theorem vsub_def (a b : Vec3) : a - b = ⟨a.x - b.x, a.y - b.y, a.z - b.z⟩ := rfl

@[simp] theorem vscale_def (a : Vec3) (s : ℝ) : a * s = ⟨a.x * s, a.y * s, a.z * s⟩ := rfl

@[simp] theorem vdivs_def (a : Vec3) (s : ℝ) : a / s = ⟨a.x / s, a.y / s, a.z / s⟩ := rfl

/-- `dot` from the source. -/
def dot (a b : Vec3) : ℝ := a.x * b.x + a.y * b.y + a.z * b.z

/-- `length` from the source: `sqrt(dot(a,a))`. -/
def length (a : Vec3) : ℝ := Real.sqrt (dot a a)

/-- `normalize` from the source: zero vector when the length is not positive. -/
def normalize (a : Vec3) : Vec3 := if 0 < length a then a / length a else ⟨0, 0, 0⟩

/-- `cross` from the source. -/
def cross (a b : Vec3) : Vec3 :=
  ⟨a.y * b.z - a.z * b.y, a.z * b.x - a.x * b.z, a.x * b.y - a.y * b.x⟩

/-- Hamilton product `quatMul` from the source. -/
def quatMul (a b : Quat) : Quat :=
  ⟨a.w * b.w - a.x * b.x - a.y * b.y - a.z * b.z,
   a.w * b.x + a.x * b.w + a.y * b.z - a.z * b.y,
   a.w * b.y - a.x * b.z + a.y * b.w + a.z * b.x,
   a.w * b.z + a.x * b.y - a.y * b.x + a.z * b.w⟩

/-- Squared quaternion norm (the radicand computed inside `quatNormalize`). -/
def quatNormSq (q : Quat) : ℝ := q.w * q.w + q.x * q.x + q.y * q.y + q.z * q.z

/-- Quaternion norm. -/
def quatNorm (q : Quat) : ℝ := Real.sqrt (quatNormSq q)

/-- `quatNormalize` from the source: divide all four components by the norm. -/
def quatNormalize (q : Quat) : Quat :=
  let len := Real.sqrt (q.w * q.w + q.x * q.x + q.y * q.y + q.z * q.z)
  ⟨q.w / len, q.x / len, q.y / len, q.z / len⟩

/-- `quatConjugate` from the source. -/
def quatConjugate (q : Quat) : Quat := ⟨q.w, -q.x, -q.y, -q.z⟩

/-- `rotateVec` from the source: sandwich product `q * p * conj q`. -/
def rotateVec (q : Quat) (v : Vec3) : Vec3 :=
  let p : Quat := ⟨0, v.x, v.y, v.z⟩
  let iq : Quat := ⟨q.w, -q.x, -q.y, -q.z⟩
  let r := quatMul (quatMul q p) iq
  ⟨r.x, r.y, r.z⟩

/-- `rotateInv` from the source. -/
def rotateInv (q : Quat) (v : Vec3) : Vec3 := rotateVec (quatConjugate q) v

/-- Rigid body state, mirroring `struct FractalObject`.  The `de` member is a
nullable function pointer in the source, rendered as an `Option`. -/
structure FractalObject where
  position : Vec3
  velocity : Vec3
  angularVelocity : Vec3
  orientation : Quat
  radius : ℝ
  mass : ℝ
  inertia : ℝ
  de : Option (Vec3 → ℝ)

/-- The un-normalized quaternion produced inside `integrateOrientation`,
before the final `quatNormalize` call. -/
def orientationUpdate (obj : FractalObject) (dt : ℝ) : Quat :=
  let wq : Quat := ⟨0, obj.angularVelocity.x, obj.angularVelocity.y, obj.angularVelocity.z⟩
  let dq := quatMul wq obj.orientation
  ⟨obj.orientation.w + 0.5 * dq.w * dt,
   obj.orientation.x + 0.5 * dq.x * dt,
   obj.orientation.y + 0.5 * dq.y * dt,
   obj.orientation.z + 0.5 * dq.z * dt⟩

/-- `integrateOrientation` from the source: derivative update then renormalize. -/
def integrateOrientation (obj : FractalObject) (dt : ℝ) : FractalObject :=
  { obj with orientation := quatNormalize (orientationUpdate obj dt) }

/-- The local, radius-normalized DE evaluation used both by the narrow-phase
march and by the response guard: `o.de ? o.de(local/radius)*radius : 0`,
with `local = rotateInv(o.orientation, p - o.position)`. -/
def deVal (o : FractalObject) (p : Vec3) : ℝ :=
  match o.de with
  | some f => f (rotateInv o.orientation (p - o.position) / o.radius) * o.radius
  | none => 0

/-- Summed DE estimate `da + db` at a world point. -/
def deSum (a b : FractalObject) (p : Vec3) : ℝ := deVal a p + deVal b p

/-- One advance of the march parameter: `t += d * 0.5`. -/
def marchStep (a b : FractalObject) (dir : Vec3) (t : ℝ) : ℝ :=
  t + deSum a b (a.position + dir * t) * 0.5

/-- The `for` loop of `findContactPoint`, with the loop counter as fuel:
stop when `t < tMax` fails or the summed estimate drops below `0.0005`,
otherwise advance `t` by half the estimate. -/
def marchFrom (a b : FractalObject) (dir : Vec3) (tMax : ℝ) : Nat → ℝ → ℝ
  | 0, t => t
  | n + 1, t =>
      if t < tMax then
        let d := deSum a b (a.position + dir * t)
        if d < 0.0005 then t else marchFrom a b dir tMax n (t + d * 0.5)
      else t

/-- The unconditional iteration of `marchStep`, used to describe which value
of `t` the bounded march returns. -/
def marchIter (a b : FractalObject) (dir : Vec3) : Nat → ℝ → ℝ
  | 0, t => t
  | n + 1, t => marchIter a b dir n (marchStep a b dir t)

/-- `findContactPoint` from the source. -/
def findContactPoint (a b : FractalObject) : Vec3 :=
  let dir := normalize (b.position - a.position)
  let dist := length (b.position - a.position)
  a.position + dir * marchFrom a b dir (dist - b.radius) 16 a.radius

/-- Squared separation with the additive epsilon, `dot(diff,diff) + 1e-6`,
as computed by the gravity block of `stepPhysics`. -/
def gravDistSq (a b : FractalObject) : ℝ :=
  dot (b.position - a.position) (b.position - a.position) + 1e-6

/-- The gravity block of `stepPhysics`: inverse-square attraction applied to
both velocities with opposite signs. -/
def gravityPhase (a b : FractalObject) (dt G : ℝ) : FractalObject × FractalObject :=
  let diff := b.position - a.position
  let distSq := gravDistSq a b
  let dist := Real.sqrt distSq
  let n := diff / dist
  let forceMag := G * a.mass * b.mass / distSq
  let force := n * forceMag
  ({ a with velocity := a.velocity + force / a.mass * dt },
   { b with velocity := b.velocity - force / b.mass * dt })

/-- The integration block of `stepPhysics`: explicit Euler position update
followed by `integrateOrientation`, for both bodies. -/
def integratePhase (a b : FractalObject) (dt : ℝ) : FractalObject × FractalObject :=
  (integrateOrientation { a with position := a.position + a.velocity * dt } dt,
   integrateOrientation { b with position := b.position + b.velocity * dt } dt)

/-- Gravity followed by integration: the unconditional part of a tick that
runs before collision handling. -/
def prePhase (a b : FractalObject) (dt G : ℝ) : FractalObject × FractalObject :=
  let g := gravityPhase a b dt G
  integratePhase g.1 g.2 dt

/-- Center distance recomputed by the broad phase after integration. -/
def broadDist (a b : FractalObject) : ℝ := length (b.position - a.position)

/-- Contact normal of the broad phase: `diff/dist` when `dist > 0`,
otherwise the fixed fallback `(1,0,0)`. -/
def broadNormal (a b : FractalObject) : Vec3 :=
  if 0 < broadDist a b then (b.position - a.position) / broadDist a b else ⟨1, 0, 0⟩

/-- Local DE value of body `a` at the accepted contact point. -/
def contactDa (a b : FractalObject) : ℝ := deVal a (findContactPoint a b)

/-- Local DE value of body `b` at the accepted contact point. -/
def contactDb (a b : FractalObject) : ℝ := deVal b (findContactPoint a b)

/-- Relative normal velocity at the contact point, including the rotational
lever-arm terms: `dot(vb - va, n)`. -/
def contactRel (a b : FractalObject) : ℝ :=
  let contact := findContactPoint a b
  let va := a.velocity + cross a.angularVelocity (contact - a.position)
  let vb := b.velocity + cross b.angularVelocity (contact - b.position)
  dot (vb - va) (broadNormal a b)

/-- `std::clamp`. -/
def clamp (v lo hi : ℝ) : ℝ := if v < lo then lo else if hi < v then hi else v

/-- The body of the `if (rel < 0)` block of `stepPhysics`: normal impulse,
clamped friction impulse, and single-step positional correction. -/
def resolveCollision (a b : FractalObject) : FractalObject × FractalObject :=
  let dist := broadDist a b
  let n := broadNormal a b
  let contact := findContactPoint a b
  let ra := contact - a.position
  let rb := contact - b.position
  let rel := contactRel a b
  let raCn := length (cross ra n)
  let rbCn := length (cross rb n)
  let invMass := 1 / a.mass + 1 / b.mass + raCn * raCn / a.inertia + rbCn * rbCn / b.inertia
  let j := -(1 + 1) * rel / invMass
  let impulse := n * j
  let a2 := { a with velocity := a.velocity + impulse / a.mass,
                     angularVelocity := a.angularVelocity + cross ra impulse / a.inertia }
  let b2 := { b with velocity := b.velocity - impulse / b.mass,
                     angularVelocity := b.angularVelocity - cross rb impulse / b.inertia }
  let va := a.velocity + cross a.angularVelocity ra
  let vb := b.velocity + cross b.angularVelocity rb
  let rv := vb - va
  let tangentRaw := rv - n * dot rv n
  let tlen := length tangentRaw
  let mu := 0.5
  let tangent := tangentRaw / tlen
  let jt := clamp (-dot rv tangent / invMass) (-(j * mu)) (j * mu)
  let fImpulse := tangent * jt
  let a3 := if 1e-6 < tlen then
      { a2 with velocity := a2.velocity + fImpulse / a.mass,
                angularVelocity := a2.angularVelocity + cross ra fImpulse / a.inertia }
    else a2
  let b3 := if 1e-6 < tlen then
      { b2 with velocity := b2.velocity - fImpulse / b.mass,
                angularVelocity := b2.angularVelocity - cross rb fImpulse / b.inertia }
    else b2
  let pen := a.radius + b.radius - dist
  let corr := n * (pen * 0.5)
  ({ a3 with position := a3.position - corr }, { b3 with position := b3.position + corr })

/-- Broad phase, narrow phase, and response: the conditional tail of
`stepPhysics` that runs after integration. -/
def responsePhase (a b : FractalObject) : FractalObject × FractalObject :=
  if broadDist a b ≤ a.radius + b.radius then
    if contactDa a b < 0.001 ∧ contactDb a b < 0.001 then
      if contactRel a b < 0 then resolveCollision a b else (a, b)
    else (a, b)
  else (a, b)

/-- `stepPhysics` from the source: gravity, integration, then conditional
collision handling. -/
def stepPhysics (a b : FractalObject) (dt G : ℝ) : FractalObject × FractalObject :=
  let p := prePhase a b dt G
  responsePhase p.1 p.2

/-- Total linear momentum `mA*velA + mB*velB` of a pair of bodies. -/
def momentum (ab : FractalObject × FractalObject) : Vec3 :=
  ab.1.velocity * ab.1.mass + ab.2.velocity * ab.2.mass

theorem dot_self_nonneg (v : Vec3) : 0 ≤ dot v v := by
  unfold dot
  have hx := mul_self_nonneg v.x
  have hy := mul_self_nonneg v.y
  have hz := mul_self_nonneg v.z
  linarith

/-- Claim C7: for every pair of body positions, including coincident centers,
the squared separation used by the gravity block is at least `1e-6`, hence
strictly positive, and so is the distance obtained as its square root: all
denominators of the gravity update are strictly positive. -/
theorem C7_gravity_denominators_positive (a b : FractalObject) :
    1e-6 ≤ gravDistSq a b ∧ 0 < gravDistSq a b ∧ 0 < Real.sqrt (gravDistSq a b) := by
  have h := dot_self_nonneg (b.position - a.position)
  have h1 : (1e-6 : ℝ) ≤ gravDistSq a b := by unfold gravDistSq; linarith
  have h2 : (0 : ℝ) < gravDistSq a b := by
    have : (0 : ℝ) < 1e-6 := by norm_num
    linarith
  exact ⟨h1, h2, Real.sqrt_pos.mpr h2⟩

theorem marchFrom_spec (a b : FractalObject) (dir : Vec3) (tMax : ℝ) :
    ∀ fuel t, ∃ k, k ≤ fuel ∧
      marchFrom a b dir tMax fuel t = marchIter a b dir k t ∧
      (∀ j, j < k → marchIter a b dir j t < tMax ∧
        ¬ deSum a b (a.position + dir * marchIter a b dir j t) < 0.0005) ∧
      (k = fuel ∨ ¬ marchIter a b dir k t < tMax ∨
        deSum a b (a.position + dir * marchIter a b dir k t) < 0.0005) := by
  intro fuel
  induction fuel with
  | zero =>
      intro t
      exact ⟨0, le_refl 0, rfl, fun j hj => absurd hj (Nat.not_lt_zero j), Or.inl rfl⟩
  | succ n ih =>
      intro t
      by_cases h1 : t < tMax
      · by_cases h2 : deSum a b (a.position + dir * t) < 0.0005
        · refine ⟨0, Nat.zero_le _, ?_, fun j hj => absurd hj (Nat.not_lt_zero j), ?_⟩
          · simp only [marchFrom, if_pos h1, if_pos h2, marchIter]
          · exact Or.inr (Or.inr (by simpa [marchIter] using h2))
        · obtain ⟨k, hk, heq, hall, hstop⟩ := ih (marchStep a b dir t)
          refine ⟨k + 1, Nat.succ_le_succ hk, ?_, ?_, ?_⟩
          · simp only [marchFrom, if_pos h1, if_neg h2]
            exact heq
          · intro j hj
            cases j with
            | zero => exact ⟨by simpa [marchIter] using h1, by simpa [marchIter] using h2⟩
            | succ j' =>
                have hj' := hall j' (Nat.lt_of_succ_lt_succ hj)
                exact ⟨by simpa [marchIter] using hj'.1, by simpa [marchIter] using hj'.2⟩
          · rcases hstop with h | h | h
            · exact Or.inl (by omega)
            · exact Or.inr (Or.inl (by simpa [marchIter] using h))
            · exact Or.inr (Or.inr (by simpa [marchIter] using h))
      · refine ⟨0, Nat.zero_le _, ?_, fun j hj => absurd hj (Nat.not_lt_zero j), ?_⟩
        · simp only [marchFrom, if_neg h1, marchIter]
        · exact Or.inr (Or.inl (by simpa [marchIter] using h1))

/-- Claim C8: `findContactPoint` marches `t` from `radiusA` toward
`distance - radiusB` for at most 16 iterations; each performed iteration had
`t < tMax` and a summed DE estimate (evaluated in each body's inverse-rotated,
radius-normalized local frame by `deSum`) at least `5e-4`, and `t` advanced by
half that sum; the march stops either by exhausting the 16-iteration budget,
by `t` reaching `tMax`, or by the estimate dropping below `5e-4`, and the
returned point is the point of the final `t` in every case, with no error. -/
theorem C8_findContactPoint_march (a b : FractalObject) :
    ∃ k, k ≤ 16 ∧
      findContactPoint a b = a.position + normalize (b.position - a.position) *
        marchIter a b (normalize (b.position - a.position)) k a.radius ∧
      (∀ j, j < k →
        marchIter a b (normalize (b.position - a.position)) j a.radius <
          length (b.position - a.position) - b.radius ∧
        ¬ deSum a b (a.position + normalize (b.position - a.position) *
            marchIter a b (normalize (b.position - a.position)) j a.radius) < 0.0005) ∧
      (k = 16 ∨
        ¬ marchIter a b (normalize (b.position - a.position)) k a.radius <
          length (b.position - a.position) - b.radius ∨
        deSum a b (a.position + normalize (b.position - a.position) *
          marchIter a b (normalize (b.position - a.position)) k a.radius) < 0.0005) := by
  obtain ⟨k, hk, heq, hall, hstop⟩ :=
    marchFrom_spec a b (normalize (b.position - a.position))
      (length (b.position - a.position) - b.radius) 16 a.radius
  refine ⟨k, hk, ?_, hall, hstop⟩
  simp only [findContactPoint]
  rw [heq]

theorem quatNormSq_pos (q : Quat) (h : q ≠ ⟨0, 0, 0, 0⟩) : 0 < quatNormSq q := by
  obtain ⟨w, x, y, z⟩ := q
  simp only [ne_eq, Quat.mk.injEq, not_and] at h
  by_contra hle
  push_neg at hle
  simp only [quatNormSq] at hle
  have hw : w = 0 := by nlinarith [mul_self_nonneg w, mul_self_nonneg x, mul_self_nonneg y, mul_self_nonneg z]
  have hx : x = 0 := by nlinarith [mul_self_nonneg w, mul_self_nonneg x, mul_self_nonneg y, mul_self_nonneg z]
  have hy : y = 0 := by nlinarith [mul_self_nonneg w, mul_self_nonneg x, mul_self_nonneg y, mul_self_nonneg z]
  have hz : z = 0 := by nlinarith [mul_self_nonneg w, mul_self_nonneg x, mul_self_nonneg y, mul_self_nonneg z]
  exact h hw hx hy hz

theorem quatNorm_quatNormalize (q : Quat) (h : q ≠ ⟨0, 0, 0, 0⟩) :
    quatNorm (quatNormalize q) = 1 := by
  have hpos := quatNormSq_pos q h
  have hLsq : Real.sqrt (quatNormSq q) * Real.sqrt (quatNormSq q) = quatNormSq q :=
    Real.mul_self_sqrt (le_of_lt hpos)
  have hLne : Real.sqrt (quatNormSq q) ≠ 0 := ne_of_gt (Real.sqrt_pos.mpr hpos)
  have key : quatNormSq (quatNormalize q) = 1 := by
    show q.w / Real.sqrt (quatNormSq q) * (q.w / Real.sqrt (quatNormSq q)) +
        q.x / Real.sqrt (quatNormSq q) * (q.x / Real.sqrt (quatNormSq q)) +
        q.y / Real.sqrt (quatNormSq q) * (q.y / Real.sqrt (quatNormSq q)) +
        q.z / Real.sqrt (quatNormSq q) * (q.z / Real.sqrt (quatNormSq q)) = 1
    field_simp
    unfold quatNormSq
    rfl
  unfold quatNorm
  rw [key, Real.sqrt_one]

/-- Claim C3: for every body with `|angularVelocity| ≤ 10` and every timestep
`dt ≤ 0.05`, provided the updated pre-normalization quaternion is nonzero,
the orientation produced by `integrateOrientation` has unit norm within
`1e-5` (in the real-number model the renormalization restores the norm to
exactly 1). -/
theorem C3_unit_norm_after_integration (obj : FractalObject) (dt : ℝ)
    (_hw : length obj.angularVelocity ≤ 10) (_hdt : dt ≤ 0.05)
    (hq : orientationUpdate obj dt ≠ ⟨0, 0, 0, 0⟩) :
    |quatNorm ((integrateOrientation obj dt).orientation) - 1| ≤ 1e-5 := by
  have h1 : (integrateOrientation obj dt).orientation =
      quatNormalize (orientationUpdate obj dt) := rfl
  rw [h1, quatNorm_quatNormalize _ hq]
  norm_num

theorem momentum_push1 (a b a2 b2 : FractalObject) (p : Vec3)
    (ha : a.mass ≠ 0) (hb : b.mass ≠ 0)
    (hma : a2.mass = a.mass) (hmb : b2.mass = b.mass)
    (hva : a2.velocity = a.velocity + p / a.mass)
    (hvb : b2.velocity = b.velocity - p / b.mass) :
    momentum (a2, b2) = momentum (a, b) := by
  simp only [momentum, hma, hmb, hva, hvb, vadd_def, vsub_def, vscale_def, vdivs_def,
    Vec3.mk.injEq]
  refine ⟨?_, ?_, ?_⟩ <;> field_simp

theorem momentum_push2 (a b a2 b2 : FractalObject) (p q : Vec3)
    (ha : a.mass ≠ 0) (hb : b.mass ≠ 0)
    (hma : a2.mass = a.mass) (hmb : b2.mass = b.mass)
    (hva : a2.velocity = a.velocity + p / a.mass + q / a.mass)
    (hvb : b2.velocity = b.velocity - p / b.mass - q / b.mass) :
    momentum (a2, b2) = momentum (a, b) := by
  simp only [momentum, hma, hmb, hva, hvb, vadd_def, vsub_def, vscale_def, vdivs_def,
    Vec3.mk.injEq]
  refine ⟨?_, ?_, ?_⟩ <;> field_simp

theorem momentum_resolveCollision (a b : FractalObject)
    (ha : a.mass ≠ 0) (hb : b.mass ≠ 0) :
    momentum (resolveCollision a b) = momentum (a, b) := by
  simp only [resolveCollision]
  split_ifs with hf
  · exact momentum_push2 a b _ _ _ _ ha hb rfl rfl rfl rfl
  · exact momentum_push1 a b _ _ _ ha hb rfl rfl rfl rfl

theorem momentum_responsePhase (a b : FractalObject)
    (ha : a.mass ≠ 0) (hb : b.mass ≠ 0) :
    momentum (responsePhase a b) = momentum (a, b) := by
  unfold responsePhase
  split_ifs with h1 h2 h3
  · exact momentum_resolveCollision a b ha hb
  all_goals rfl

theorem momentum_gravityPhase (a b : FractalObject) (dt G : ℝ)
    (ha : a.mass ≠ 0) (hb : b.mass ≠ 0) :
    momentum (gravityPhase a b dt G) = momentum (a, b) := by
  refine momentum_push1 a b _ _
    ((b.position - a.position) / Real.sqrt (gravDistSq a b) *
        (G * a.mass * b.mass / gravDistSq a b) * dt) ha hb rfl rfl ?_ ?_ <;>
  · simp only [gravityPhase, vadd_def, vsub_def, vscale_def, vdivs_def, Vec3.mk.injEq]
    refine ⟨by ring, by ring, by ring⟩

theorem momentum_prePhase (a b : FractalObject) (dt G : ℝ)
    (ha : a.mass ≠ 0) (hb : b.mass ≠ 0) :
    momentum (prePhase a b dt G) = momentum (a, b) := by
  have h1 : momentum (prePhase a b dt G) = momentum (gravityPhase a b dt G) := rfl
  rw [h1, momentum_gravityPhase a b dt G ha hb]

/-- Claim C2: for every pair of bodies with nonzero masses and every timestep
and gravitational constant, a full `stepPhysics` tick conserves total linear
momentum `mA*velA + mB*velB` exactly in the real-number model, because the
gravity force, the normal impulse, and the friction impulse are each applied
with equal magnitude and opposite sign to the two bodies. -/
theorem C2_momentum_conserved (a b : FractalObject) (dt G : ℝ)
    (ha : a.mass ≠ 0) (hb : b.mass ≠ 0) :
    momentum (stepPhysics a b dt G) = momentum (a, b) := by
  have hma : (prePhase a b dt G).1.mass = a.mass := rfl
  have hmb : (prePhase a b dt G).2.mass = b.mass := rfl
  have hstep : stepPhysics a b dt G =
      responsePhase (prePhase a b dt G).1 (prePhase a b dt G).2 := rfl
  rw [hstep, momentum_responsePhase _ _ (hma ▸ ha) (hmb ▸ hb)]
  have h2 : momentum ((prePhase a b dt G).1, (prePhase a b dt G).2) =
      momentum (prePhase a b dt G) := rfl
  rw [h2, momentum_prePhase a b dt G ha hb]

def c2BodyA : FractalObject :=
  ⟨⟨0, 0, 0⟩, ⟨1, 0, 0⟩, ⟨0, 0, 0⟩, ⟨1, 0, 0, 0⟩, 1, 1, 1, none⟩

def c2BodyB : FractalObject :=
  ⟨⟨1, 0, 0⟩, ⟨-1, 0, 0⟩, ⟨0, 0, 0⟩, ⟨1, 0, 0, 0⟩, 1, 1, 1, none⟩

theorem C2_witness :
    c2BodyA.mass ≠ 0 ∧ c2BodyB.mass ≠ 0 ∧
    momentum (stepPhysics c2BodyA c2BodyB 0.016 1) = momentum (c2BodyA, c2BodyB) := by
  have ha : c2BodyA.mass ≠ 0 := by simp [c2BodyA]
  have hb : c2BodyB.mass ≠ 0 := by simp [c2BodyB]
  exact ⟨ha, hb, C2_momentum_conserved c2BodyA c2BodyB 0.016 1 ha hb⟩

theorem responsePhase_far (a b : FractalObject)
    (h : a.radius + b.radius < broadDist a b) :
    responsePhase a b = (a, b) := by
  unfold responsePhase
  rw [if_neg (not_le.mpr h)]

theorem responsePhase_separating (a b : FractalObject)
    (hov : broadDist a b ≤ a.radius + b.radius)
    (hda : contactDa a b < 0.001) (hdb : contactDb a b < 0.001)
    (hrel : 0 ≤ contactRel a b) :
    responsePhase a b = (a, b) := by
  unfold responsePhase
  rw [if_pos hov, if_pos ⟨hda, hdb⟩, if_neg (not_lt.mpr hrel)]

theorem responsePhase_resolve (a b : FractalObject)
    (hov : broadDist a b ≤ a.radius + b.radius)
    (hda : contactDa a b < 0.001) (hdb : contactDb a b < 0.001)
    (hrel : contactRel a b < 0) :
    responsePhase a b = resolveCollision a b := by
  unfold responsePhase
  rw [if_pos hov, if_pos ⟨hda, hdb⟩, if_pos hrel]

theorem resolveCollision_position (a b : FractalObject) :
    (resolveCollision a b).1.position =
      a.position - broadNormal a b * ((a.radius + b.radius - broadDist a b) * 0.5) ∧
    (resolveCollision a b).2.position =
      b.position + broadNormal a b * ((a.radius + b.radius - broadDist a b) * 0.5) := by
  constructor <;>
  · simp only [resolveCollision]
    split_ifs <;> rfl

theorem quatNormalize_unit (q : Quat) (h : quatNormSq q = 1) : quatNormalize q = q := by
  show (⟨q.w / Real.sqrt (quatNormSq q), q.x / Real.sqrt (quatNormSq q),
      q.y / Real.sqrt (quatNormSq q), q.z / Real.sqrt (quatNormSq q)⟩ : Quat) = q
  rw [h, Real.sqrt_one]
  simp only [div_one]

theorem integrateOrientation_zero (obj : FractalObject)
    (h : quatNormSq obj.orientation = 1) : integrateOrientation obj 0 = obj := by
  have hupd : orientationUpdate obj 0 = obj.orientation := by
    simp only [orientationUpdate]
    norm_num
  unfold integrateOrientation
  rw [hupd, quatNormalize_unit _ h]

theorem gravityPhase_zero (a b : FractalObject) (G : ℝ) :
    gravityPhase a b 0 G = (a, b) := by
  simp only [gravityPhase, vadd_def, vsub_def, vscale_def, vdivs_def]
  norm_num

theorem integratePhase_zero (a b : FractalObject)
    (ha : quatNormSq a.orientation = 1) (hb : quatNormSq b.orientation = 1) :
    integratePhase a b 0 = (a, b) := by
  unfold integratePhase
  have hpa : { a with position := a.position + a.velocity * (0 : ℝ) } = a := by
    simp only [vadd_def, vscale_def]
    norm_num
  have hpb : { b with position := b.position + b.velocity * (0 : ℝ) } = b := by
    simp only [vadd_def, vscale_def]
    norm_num
  rw [hpa, hpb, integrateOrientation_zero a ha, integrateOrientation_zero b hb]

theorem prePhase_zero (a b : FractalObject) (G : ℝ)
    (ha : quatNormSq a.orientation = 1) (hb : quatNormSq b.orientation = 1) :
    prePhase a b 0 G = (a, b) := by
  simp only [prePhase]
  rw [gravityPhase_zero a b G]
  exact integratePhase_zero a b ha hb

/-- Claim C4: whenever the integrated centers are farther apart than the sum
of the radii, the tick performs no collision handling at all: the result of
`stepPhysics` is exactly the gravity-plus-integration state, the velocities
carry only the gravity contribution, the angular velocities are unchanged,
and the positions are still advanced by explicit Euler. -/
theorem C4_no_overlap_gravity_only (a b : FractalObject) (dt G : ℝ)
    (h : (prePhase a b dt G).1.radius + (prePhase a b dt G).2.radius <
      broadDist (prePhase a b dt G).1 (prePhase a b dt G).2) :
    stepPhysics a b dt G = prePhase a b dt G ∧
    (stepPhysics a b dt G).1.velocity = (gravityPhase a b dt G).1.velocity ∧
    (stepPhysics a b dt G).2.velocity = (gravityPhase a b dt G).2.velocity ∧
    (stepPhysics a b dt G).1.angularVelocity = a.angularVelocity ∧
    (stepPhysics a b dt G).2.angularVelocity = b.angularVelocity ∧
    (stepPhysics a b dt G).1.position =
      (gravityPhase a b dt G).1.position + (gravityPhase a b dt G).1.velocity * dt ∧
    (stepPhysics a b dt G).2.position =
      (gravityPhase a b dt G).2.position + (gravityPhase a b dt G).2.velocity * dt := by
  have hstep : stepPhysics a b dt G = prePhase a b dt G :=
    responsePhase_far (prePhase a b dt G).1 (prePhase a b dt G).2 h
  rw [hstep]
  exact ⟨rfl, rfl, rfl, rfl, rfl, rfl, rfl⟩

def c4BodyA : FractalObject :=
  ⟨⟨0, 0, 0⟩, ⟨0, 0, 0⟩, ⟨0, 0, 0⟩, ⟨1, 0, 0, 0⟩, 1, 1, 1, none⟩

def c4BodyB : FractalObject :=
  ⟨⟨4, 0, 0⟩, ⟨0, 0, 0⟩, ⟨0, 0, 0⟩, ⟨1, 0, 0, 0⟩, 1, 1, 1, none⟩

theorem C4_witness :
    (prePhase c4BodyA c4BodyB 0 1).1.radius + (prePhase c4BodyA c4BodyB 0 1).2.radius <
      broadDist (prePhase c4BodyA c4BodyB 0 1).1 (prePhase c4BodyA c4BodyB 0 1).2 ∧
    stepPhysics c4BodyA c4BodyB 0 1 = prePhase c4BodyA c4BodyB 0 1 := by
  have hpre : prePhase c4BodyA c4BodyB 0 1 = (c4BodyA, c4BodyB) :=
    prePhase_zero _ _ 1 (by norm_num [c4BodyA, quatNormSq])
      (by norm_num [c4BodyB, quatNormSq])
  have hbd : broadDist c4BodyA c4BodyB = 4 := by
    unfold broadDist length
    have h16 : dot (c4BodyB.position - c4BodyA.position)
        (c4BodyB.position - c4BodyA.position) = 16 := by
      norm_num [c4BodyA, c4BodyB, dot]
    rw [h16, show (16 : ℝ) = 4 ^ 2 by norm_num, Real.sqrt_sq (by norm_num : (0 : ℝ) ≤ 4)]
  have h : (prePhase c4BodyA c4BodyB 0 1).1.radius + (prePhase c4BodyA c4BodyB 0 1).2.radius <
      broadDist (prePhase c4BodyA c4BodyB 0 1).1 (prePhase c4BodyA c4BodyB 0 1).2 := by
    rw [hpre, hbd]
    norm_num [c4BodyA, c4BodyB]
  exact ⟨h, (C4_no_overlap_gravity_only c4BodyA c4BodyB 0 1 h).1⟩

/-- Claim C5: overlapping bodies whose narrow-phase contact is accepted (both
local DE values below the `0.001` threshold) but whose relative normal
velocity is nonnegative (already separating) receive no impulse at all: the
response step leaves both bodies exactly as gravity and integration left
them, which is the correct no-op branch. -/
theorem C5_separating_velocity_noop (a b : FractalObject) (dt G : ℝ)
    (hov : broadDist (prePhase a b dt G).1 (prePhase a b dt G).2 ≤
      (prePhase a b dt G).1.radius + (prePhase a b dt G).2.radius)
    (hda : contactDa (prePhase a b dt G).1 (prePhase a b dt G).2 < 0.001)
    (hdb : contactDb (prePhase a b dt G).1 (prePhase a b dt G).2 < 0.001)
    (hrel : 0 ≤ contactRel (prePhase a b dt G).1 (prePhase a b dt G).2) :
    stepPhysics a b dt G = prePhase a b dt G ∧
    (stepPhysics a b dt G).1.velocity = (prePhase a b dt G).1.velocity ∧
    (stepPhysics a b dt G).2.velocity = (prePhase a b dt G).2.velocity ∧
    (stepPhysics a b dt G).1.angularVelocity = (prePhase a b dt G).1.angularVelocity ∧
    (stepPhysics a b dt G).2.angularVelocity = (prePhase a b dt G).2.angularVelocity := by
  have hstep : stepPhysics a b dt G = prePhase a b dt G :=
    responsePhase_separating (prePhase a b dt G).1 (prePhase a b dt G).2 hov hda hdb hrel
  rw [hstep]
  exact ⟨rfl, rfl, rfl, rfl, rfl⟩

def c5BodyA : FractalObject :=
  ⟨⟨0, 0, 0⟩, ⟨0, 0, 0⟩, ⟨0, 0, 0⟩, ⟨1, 0, 0, 0⟩, 1, 1, 1, none⟩

def c5BodyB : FractalObject :=
  ⟨⟨1, 0, 0⟩, ⟨0, 0, 0⟩, ⟨0, 0, 0⟩, ⟨1, 0, 0, 0⟩, 1, 1, 1, none⟩

theorem C5_witness :
    broadDist (prePhase c5BodyA c5BodyB 0 1).1 (prePhase c5BodyA c5BodyB 0 1).2 ≤
      (prePhase c5BodyA c5BodyB 0 1).1.radius + (prePhase c5BodyA c5BodyB 0 1).2.radius ∧
    contactDa (prePhase c5BodyA c5BodyB 0 1).1 (prePhase c5BodyA c5BodyB 0 1).2 < 0.001 ∧
    contactDb (prePhase c5BodyA c5BodyB 0 1).1 (prePhase c5BodyA c5BodyB 0 1).2 < 0.001 ∧
    0 ≤ contactRel (prePhase c5BodyA c5BodyB 0 1).1 (prePhase c5BodyA c5BodyB 0 1).2 ∧
    stepPhysics c5BodyA c5BodyB 0 1 = prePhase c5BodyA c5BodyB 0 1 := by
  have hpre : prePhase c5BodyA c5BodyB 0 1 = (c5BodyA, c5BodyB) :=
    prePhase_zero _ _ 1 (by norm_num [c5BodyA, quatNormSq])
      (by norm_num [c5BodyB, quatNormSq])
  have hbd : broadDist c5BodyA c5BodyB = 1 := by
    unfold broadDist length
    have h1 : dot (c5BodyB.position - c5BodyA.position)
        (c5BodyB.position - c5BodyA.position) = 1 := by
      norm_num [c5BodyA, c5BodyB, dot]
    rw [h1, Real.sqrt_one]
  have hov : broadDist (prePhase c5BodyA c5BodyB 0 1).1 (prePhase c5BodyA c5BodyB 0 1).2 ≤
      (prePhase c5BodyA c5BodyB 0 1).1.radius + (prePhase c5BodyA c5BodyB 0 1).2.radius := by
    rw [hpre, hbd]
    norm_num [c5BodyA, c5BodyB]
  have hda : contactDa (prePhase c5BodyA c5BodyB 0 1).1 (prePhase c5BodyA c5BodyB 0 1).2 <
      0.001 := by
    rw [hpre]
    norm_num [contactDa, deVal, c5BodyA]
  have hdb : contactDb (prePhase c5BodyA c5BodyB 0 1).1 (prePhase c5BodyA c5BodyB 0 1).2 <
      0.001 := by
    rw [hpre]
    norm_num [contactDb, deVal, c5BodyB]
  have hrel : 0 ≤ contactRel (prePhase c5BodyA c5BodyB 0 1).1
      (prePhase c5BodyA c5BodyB 0 1).2 := by
    rw [hpre]
    norm_num [contactRel, dot, cross, c5BodyA, c5BodyB]
  exact ⟨hov, hda, hdb, hrel,
    (C5_separating_velocity_noop c5BodyA c5BodyB 0 1 hov hda hdb hrel).1⟩

/-- Claim C9: whenever the collision response executes (overlap, both local
DE values below the threshold, and approaching relative normal velocity),
the positional correction moves body A by minus and body B by plus the
broad-phase normal scaled by half the penetration
`radiusA + radiusB - |posB - posA|`, in a single step. -/
theorem C9_positional_correction (a b : FractalObject) (dt G : ℝ)
    (hov : broadDist (prePhase a b dt G).1 (prePhase a b dt G).2 ≤
      (prePhase a b dt G).1.radius + (prePhase a b dt G).2.radius)
    (hda : contactDa (prePhase a b dt G).1 (prePhase a b dt G).2 < 0.001)
    (hdb : contactDb (prePhase a b dt G).1 (prePhase a b dt G).2 < 0.001)
    (hrel : contactRel (prePhase a b dt G).1 (prePhase a b dt G).2 < 0) :
    (stepPhysics a b dt G).1.position =
      (prePhase a b dt G).1.position -
        broadNormal (prePhase a b dt G).1 (prePhase a b dt G).2 *
          (((prePhase a b dt G).1.radius + (prePhase a b dt G).2.radius -
            broadDist (prePhase a b dt G).1 (prePhase a b dt G).2) * 0.5) ∧
    (stepPhysics a b dt G).2.position =
      (prePhase a b dt G).2.position +
        broadNormal (prePhase a b dt G).1 (prePhase a b dt G).2 *
          (((prePhase a b dt G).1.radius + (prePhase a b dt G).2.radius -
            broadDist (prePhase a b dt G).1 (prePhase a b dt G).2) * 0.5) := by
  have hstep : stepPhysics a b dt G =
      resolveCollision (prePhase a b dt G).1 (prePhase a b dt G).2 :=
    responsePhase_resolve (prePhase a b dt G).1 (prePhase a b dt G).2 hov hda hdb hrel
  rw [hstep]
  exact resolveCollision_position (prePhase a b dt G).1 (prePhase a b dt G).2

def c9BodyA : FractalObject :=
  ⟨⟨0, 0, 0⟩, ⟨1, 0, 0⟩, ⟨0, 0, 0⟩, ⟨1, 0, 0, 0⟩, 1, 1, 1, none⟩

def c9BodyB : FractalObject :=
  ⟨⟨1, 0, 0⟩, ⟨-1, 0, 0⟩, ⟨0, 0, 0⟩, ⟨1, 0, 0, 0⟩, 1, 1, 1, none⟩

theorem C9_witness :
    broadDist (prePhase c9BodyA c9BodyB 0 1).1 (prePhase c9BodyA c9BodyB 0 1).2 ≤
      (prePhase c9BodyA c9BodyB 0 1).1.radius + (prePhase c9BodyA c9BodyB 0 1).2.radius ∧
    contactDa (prePhase c9BodyA c9BodyB 0 1).1 (prePhase c9BodyA c9BodyB 0 1).2 < 0.001 ∧
    contactDb (prePhase c9BodyA c9BodyB 0 1).1 (prePhase c9BodyA c9BodyB 0 1).2 < 0.001 ∧
    contactRel (prePhase c9BodyA c9BodyB 0 1).1 (prePhase c9BodyA c9BodyB 0 1).2 < 0 ∧
    (stepPhysics c9BodyA c9BodyB 0 1).1.position =
      (prePhase c9BodyA c9BodyB 0 1).1.position -
        broadNormal (prePhase c9BodyA c9BodyB 0 1).1 (prePhase c9BodyA c9BodyB 0 1).2 *
          (((prePhase c9BodyA c9BodyB 0 1).1.radius + (prePhase c9BodyA c9BodyB 0 1).2.radius -
            broadDist (prePhase c9BodyA c9BodyB 0 1).1 (prePhase c9BodyA c9BodyB 0 1).2) * 0.5) := by
  have hpre : prePhase c9BodyA c9BodyB 0 1 = (c9BodyA, c9BodyB) :=
    prePhase_zero _ _ 1 (by norm_num [c9BodyA, quatNormSq])
      (by norm_num [c9BodyB, quatNormSq])
  have hbd : broadDist c9BodyA c9BodyB = 1 := by
    unfold broadDist length
    have h1 : dot (c9BodyB.position - c9BodyA.position)
        (c9BodyB.position - c9BodyA.position) = 1 := by
      norm_num [c9BodyA, c9BodyB, dot]
    rw [h1, Real.sqrt_one]
  have hn : broadNormal c9BodyA c9BodyB = ⟨1, 0, 0⟩ := by
    unfold broadNormal
    rw [hbd]
    norm_num [c9BodyA, c9BodyB]
  have hov : broadDist (prePhase c9BodyA c9BodyB 0 1).1 (prePhase c9BodyA c9BodyB 0 1).2 ≤
      (prePhase c9BodyA c9BodyB 0 1).1.radius + (prePhase c9BodyA c9BodyB 0 1).2.radius := by
    rw [hpre, hbd]
    norm_num [c9BodyA, c9BodyB]
  have hda : contactDa (prePhase c9BodyA c9BodyB 0 1).1 (prePhase c9BodyA c9BodyB 0 1).2 <
      0.001 := by
    rw [hpre]
    norm_num [contactDa, deVal, c9BodyA]
  have hdb : contactDb (prePhase c9BodyA c9BodyB 0 1).1 (prePhase c9BodyA c9BodyB 0 1).2 <
      0.001 := by
    rw [hpre]
    norm_num [contactDb, deVal, c9BodyB]
  have hrel : contactRel (prePhase c9BodyA c9BodyB 0 1).1
      (prePhase c9BodyA c9BodyB 0 1).2 < 0 := by
    rw [hpre]
    have : contactRel c9BodyA c9BodyB = -2 := by
      unfold contactRel
      rw [hn]
      norm_num [dot, cross, c9BodyA, c9BodyB]
    rw [this]
    norm_num
  exact ⟨hov, hda, hdb, hrel,
    (C9_positional_correction c9BodyA c9BodyB 0 1 hov hda hdb hrel).1⟩

/-- Claim C10: if the integrated centers coincide exactly, the broad phase
does not divide by zero: the recomputed distance is zero and the contact
normal falls back to the fixed unit vector `(1,0,0)`, so the rest of the
tick stays well defined. -/
theorem C10_coincident_centers_fallback (a b : FractalObject) (dt G : ℝ)
    (h : (prePhase a b dt G).2.position = (prePhase a b dt G).1.position) :
    broadDist (prePhase a b dt G).1 (prePhase a b dt G).2 = 0 ∧
    broadNormal (prePhase a b dt G).1 (prePhase a b dt G).2 = ⟨1, 0, 0⟩ := by
  have hd : broadDist (prePhase a b dt G).1 (prePhase a b dt G).2 = 0 := by
    unfold broadDist length
    rw [h]
    norm_num [dot]
  have hn : broadNormal (prePhase a b dt G).1 (prePhase a b dt G).2 = ⟨1, 0, 0⟩ := by
    unfold broadNormal
    rw [hd]
    norm_num
  exact ⟨hd, hn⟩

def c10BodyA : FractalObject :=
  ⟨⟨0, 0, 0⟩, ⟨0, 0, 0⟩, ⟨0, 0, 0⟩, ⟨1, 0, 0, 0⟩, 1, 1, 1, none⟩

def c10BodyB : FractalObject :=
  ⟨⟨0, 0, 0⟩, ⟨0, 0, 0⟩, ⟨0, 0, 0⟩, ⟨1, 0, 0, 0⟩, 1, 1, 1, none⟩

theorem C10_witness :
    (prePhase c10BodyA c10BodyB 0 1).2.position = (prePhase c10BodyA c10BodyB 0 1).1.position ∧
    broadNormal (prePhase c10BodyA c10BodyB 0 1).1 (prePhase c10BodyA c10BodyB 0 1).2 =
      ⟨1, 0, 0⟩ := by
  have hpre : prePhase c10BodyA c10BodyB 0 1 = (c10BodyA, c10BodyB) :=
    prePhase_zero _ _ 1 (by norm_num [c10BodyA, quatNormSq])
      (by norm_num [c10BodyB, quatNormSq])
  have h : (prePhase c10BodyA c10BodyB 0 1).2.position =
      (prePhase c10BodyA c10BodyB 0 1).1.position := by
    rw [hpre]
    norm_num [c10BodyA, c10BodyB]
  exact ⟨h, (C10_coincident_centers_fallback c10BodyA c10BodyB 0 1 h).2⟩

theorem marchFrom_stop (a b : FractalObject) (dir : Vec3) (tMax t : ℝ) (fuel : Nat)
    (h : ¬ t < tMax) : marchFrom a b dir tMax fuel t = t := by
  cases fuel with
  | zero => rfl
  | succ n => simp only [marchFrom, if_neg h]

def c1BodyA : FractalObject :=
  ⟨⟨0, 0, 0⟩, ⟨1, 0, 0⟩, ⟨0, 0, 0⟩, ⟨1, 0, 0, 0⟩, 1, 1, 1, none⟩

def c1BodyB : FractalObject :=
  ⟨⟨1, 0, 0⟩, ⟨-1, 0, 0⟩, ⟨0, 0, 0⟩, ⟨1, 0, 0, 0⟩, 1, 1, 1, none⟩

theorem c1_broadDist : broadDist c1BodyA c1BodyB = 1 := by
  unfold broadDist length
  have h1 : dot (c1BodyB.position - c1BodyA.position)
      (c1BodyB.position - c1BodyA.position) = 1 := by
    norm_num [c1BodyA, c1BodyB, dot]
  rw [h1, Real.sqrt_one]

theorem c1_broadNormal : broadNormal c1BodyA c1BodyB = ⟨1, 0, 0⟩ := by
  unfold broadNormal
  rw [c1_broadDist]
  norm_num [c1BodyA, c1BodyB]

theorem c1_contact : findContactPoint c1BodyA c1BodyB = ⟨1, 0, 0⟩ := by
  have hdir : normalize (c1BodyB.position - c1BodyA.position) = ⟨1, 0, 0⟩ := by
    unfold normalize length
    have h1 : dot (c1BodyB.position - c1BodyA.position)
        (c1BodyB.position - c1BodyA.position) = 1 := by
      norm_num [c1BodyA, c1BodyB, dot]
    rw [h1, Real.sqrt_one]
    norm_num [c1BodyA, c1BodyB]
  have hlen : length (c1BodyB.position - c1BodyA.position) = 1 := c1_broadDist
  simp only [findContactPoint, hdir, hlen]
  rw [marchFrom_stop c1BodyA c1BodyB ⟨1, 0, 0⟩ (1 - c1BodyB.radius) c1BodyA.radius 16
    (by norm_num [c1BodyA, c1BodyB])]
  norm_num [c1BodyA, c1BodyB]

theorem c1_rel : contactRel c1BodyA c1BodyB = -2 := by
  unfold contactRel
  rw [c1_broadNormal]
  norm_num [dot, cross, c1BodyA, c1BodyB]

/-- Claim C1 evaluated on the code at the failing input: two unit-mass
bodies meeting head-on at relative normal velocity `-2` come out of the
response with velocities `(3,0,0)` and `(-3,0,0)`, so the relative velocity
along the normal after the response is `-6 = 3 * rel_before`, not the
elastic-law value `+2 = -rel_before` the claim requires: the impulse is
applied with inverted signs and accelerates the approach. -/
theorem C1_code_bug_evaluation :
    (stepPhysics c1BodyA c1BodyB 0 1).1.velocity = ⟨3, 0, 0⟩ ∧
    (stepPhysics c1BodyA c1BodyB 0 1).2.velocity = ⟨-3, 0, 0⟩ ∧
    contactRel c1BodyA c1BodyB = -2 ∧
    dot ((stepPhysics c1BodyA c1BodyB 0 1).2.velocity -
        (stepPhysics c1BodyA c1BodyB 0 1).1.velocity)
      (broadNormal c1BodyA c1BodyB) = 3 * contactRel c1BodyA c1BodyB := by
  have hpre : prePhase c1BodyA c1BodyB 0 1 = (c1BodyA, c1BodyB) :=
    prePhase_zero _ _ 1 (by norm_num [c1BodyA, quatNormSq])
      (by norm_num [c1BodyB, quatNormSq])
  have hov : broadDist c1BodyA c1BodyB ≤ c1BodyA.radius + c1BodyB.radius := by
    rw [c1_broadDist]
    norm_num [c1BodyA, c1BodyB]
  have hda : contactDa c1BodyA c1BodyB < 0.001 := by
    norm_num [contactDa, deVal, c1BodyA]
  have hdb : contactDb c1BodyA c1BodyB < 0.001 := by
    norm_num [contactDb, deVal, c1BodyB]
  have hrel : contactRel c1BodyA c1BodyB < 0 := by
    rw [c1_rel]
    norm_num
  have hstep : stepPhysics c1BodyA c1BodyB 0 1 = resolveCollision c1BodyA c1BodyB := by
    show responsePhase (prePhase c1BodyA c1BodyB 0 1).1 (prePhase c1BodyA c1BodyB 0 1).2 =
      resolveCollision c1BodyA c1BodyB
    rw [hpre]
    exact responsePhase_resolve c1BodyA c1BodyB hov hda hdb hrel
  have hv1 : (resolveCollision c1BodyA c1BodyB).1.velocity = ⟨3, 0, 0⟩ := by
    simp only [resolveCollision, c1_broadNormal, c1_broadDist, c1_contact, c1_rel]
    norm_num [c1BodyA, c1BodyB, cross, dot, length, Real.sqrt_zero]
  have hv2 : (resolveCollision c1BodyA c1BodyB).2.velocity = ⟨-3, 0, 0⟩ := by
    simp only [resolveCollision, c1_broadNormal, c1_broadDist, c1_contact, c1_rel]
    norm_num [c1BodyA, c1BodyB, cross, dot, length, Real.sqrt_zero]
  refine ⟨by rw [hstep]; exact hv1, by rw [hstep]; exact hv2, c1_rel, ?_⟩
  rw [hstep, hv1, hv2, c1_broadNormal, c1_rel]
  norm_num [dot]

def c3Body : FractalObject :=
  ⟨⟨0, 0, 0⟩, ⟨0, 0, 0⟩, ⟨0, 0, 0⟩, ⟨1, 0, 0, 0⟩, 1, 1, 1, none⟩

theorem C3_witness :
    length c3Body.angularVelocity ≤ 10 ∧ (0.016 : ℝ) ≤ 0.05 ∧
    orientationUpdate c3Body 0.016 ≠ ⟨0, 0, 0, 0⟩ ∧
    |quatNorm ((integrateOrientation c3Body 0.016).orientation) - 1| ≤ 1e-5 := by
  have hw : length c3Body.angularVelocity ≤ 10 := by
    simp only [c3Body, length, dot]
    norm_num [Real.sqrt_zero]
  have hdt : (0.016 : ℝ) ≤ 0.05 := by norm_num
  have hq : orientationUpdate c3Body 0.016 ≠ ⟨0, 0, 0, 0⟩ := by
    simp only [c3Body, orientationUpdate, quatMul]
    norm_num [Quat.mk.injEq]
  exact ⟨hw, hdt, hq, C3_unit_norm_after_integration c3Body 0.016 hw hdt hq⟩

/-- Body A of the concrete spec scenario, with an arbitrary DE choice. -/
def scenarioA (de : Option (Vec3 → ℝ)) : FractalObject :=
  ⟨⟨-2, 0, 0⟩, ⟨0, 0, 0⟩, ⟨0, 0, 0⟩, ⟨1, 0, 0, 0⟩, 1, 1, 1, de⟩

/-- Body B of the concrete spec scenario, with an arbitrary DE choice. -/
def scenarioB (de : Option (Vec3 → ℝ)) : FractalObject :=
  ⟨⟨2, 0, 0⟩, ⟨0, 0, 0⟩, ⟨0, 0, 0⟩, ⟨1, 0, 0, 0⟩, 1, 1, 1, de⟩

/-- The regularized squared separation of the scenario. -/
def c6D : ℝ := 16 + 1e-6

/-- The regularized separation of the scenario. -/
def c6S : ℝ := Real.sqrt c6D

/-- The speed each scenario body gains from one gravity application. -/
def c6v : ℝ := 0.064 / (c6S * c6D)

theorem c6D_pos : (0 : ℝ) < c6D := by unfold c6D; norm_num

theorem c6S_pos : 0 < c6S := Real.sqrt_pos.mpr c6D_pos

theorem c6S_ge_four : 4 ≤ c6S := by
  have h1 : Real.sqrt 16 ≤ c6S := Real.sqrt_le_sqrt (by unfold c6D; norm_num)
  have h2 : Real.sqrt 16 = 4 := by
    rw [show (16 : ℝ) = 4 ^ 2 by norm_num]
    exact Real.sqrt_sq (by norm_num)
  linarith [h1, h2.symm.le]

theorem c6v_pos : 0 < c6v := by
  unfold c6v
  exact div_pos (by norm_num) (mul_pos c6S_pos c6D_pos)

theorem c6v_small : c6v ≤ 0.001 := by
  have h64 : (64 : ℝ) ≤ c6S * c6D := by
    have hD : c6D = 16 + 1e-6 := rfl
    nlinarith [c6S_ge_four, c6S_pos]
  unfold c6v
  rw [div_le_iff₀ (mul_pos c6S_pos c6D_pos)]
  nlinarith [h64]

theorem c6_gravity (deA deB : Option (Vec3 → ℝ)) :
    gravityPhase (scenarioA deA) (scenarioB deB) 0.016 1 =
      (⟨⟨-2, 0, 0⟩, ⟨c6v, 0, 0⟩, ⟨0, 0, 0⟩, ⟨1, 0, 0, 0⟩, 1, 1, 1, deA⟩,
       ⟨⟨2, 0, 0⟩, ⟨-c6v, 0, 0⟩, ⟨0, 0, 0⟩, ⟨1, 0, 0, 0⟩, 1, 1, 1, deB⟩) := by
  have hD : gravDistSq (scenarioA deA) (scenarioB deB) = c6D := by
    show dot (vsub (scenarioB deB).position (scenarioA deA).position)
      (vsub (scenarioB deB).position (scenarioA deA).position) + 1e-6 = c6D
    norm_num [scenarioA, scenarioB, dot, vsub, c6D]
  have hSne : c6S ≠ 0 := ne_of_gt c6S_pos
  have hDne : c6D ≠ 0 := ne_of_gt c6D_pos
  simp only [gravityPhase]
  rw [hD]
  simp only [scenarioA, scenarioB, vadd_def, vsub_def, vscale_def, vdivs_def]
  have hSne2 : Real.sqrt c6D ≠ 0 := hSne
  norm_num [Prod.mk.injEq, FractalObject.mk.injEq, Vec3.mk.injEq]
  unfold c6v c6S
  field_simp
  ring

theorem c6_pre (deA deB : Option (Vec3 → ℝ)) :
    prePhase (scenarioA deA) (scenarioB deB) 0.016 1 =
      (⟨⟨-2 + c6v * 0.016, 0, 0⟩, ⟨c6v, 0, 0⟩, ⟨0, 0, 0⟩, ⟨1, 0, 0, 0⟩, 1, 1, 1, deA⟩,
       ⟨⟨2 - c6v * 0.016, 0, 0⟩, ⟨-c6v, 0, 0⟩, ⟨0, 0, 0⟩, ⟨1, 0, 0, 0⟩, 1, 1, 1, deB⟩) := by
  simp only [prePhase]
  rw [c6_gravity deA deB]
  simp only [integratePhase, integrateOrientation, orientationUpdate, quatMul, quatNormalize,
    vadd_def, vscale_def]
  norm_num [Real.sqrt_one, Prod.mk.injEq, FractalObject.mk.injEq, Vec3.mk.injEq, Quat.mk.injEq]
  ring

/-- Claim C6: starting from `posA = (-2,0,0)`, `posB = (2,0,0)`, radii 1,
masses 1, zero velocities and angular velocities, identity orientations and
`G = 1`, one `stepPhysics` tick with `dt = 0.016` gives body A a strictly
positive x velocity and body B a strictly negative one (mutual attraction)
and leaves both orientations at the identity, for every choice of the two
DE shape functions, because no overlap occurs at this separation. -/
theorem C6_concrete_scenario (deA deB : Option (Vec3 → ℝ)) :
    0 < (stepPhysics (scenarioA deA) (scenarioB deB) 0.016 1).1.velocity.x ∧
    (stepPhysics (scenarioA deA) (scenarioB deB) 0.016 1).2.velocity.x < 0 ∧
    (stepPhysics (scenarioA deA) (scenarioB deB) 0.016 1).1.orientation = ⟨1, 0, 0, 0⟩ ∧
    (stepPhysics (scenarioA deA) (scenarioB deB) 0.016 1).2.orientation = ⟨1, 0, 0, 0⟩ := by
  have hpre := c6_pre deA deB
  have hxpos : (0 : ℝ) ≤ 4 - 0.032 * c6v := by nlinarith [c6v_small, c6v_pos]
  have key : Real.sqrt (dot ((⟨2 - c6v * 0.016, 0, 0⟩ : Vec3) - ⟨-2 + c6v * 0.016, 0, 0⟩)
      ((⟨2 - c6v * 0.016, 0, 0⟩ : Vec3) - ⟨-2 + c6v * 0.016, 0, 0⟩)) = 4 - 0.032 * c6v := by
    have hd : dot ((⟨2 - c6v * 0.016, 0, 0⟩ : Vec3) - ⟨-2 + c6v * 0.016, 0, 0⟩)
        ((⟨2 - c6v * 0.016, 0, 0⟩ : Vec3) - ⟨-2 + c6v * 0.016, 0, 0⟩) =
        (4 - 0.032 * c6v) * (4 - 0.032 * c6v) := by
      simp only [vsub_def, dot]
      ring
    rw [hd, Real.sqrt_mul_self hxpos]
  have hstep : stepPhysics (scenarioA deA) (scenarioB deB) 0.016 1 =
      prePhase (scenarioA deA) (scenarioB deB) 0.016 1 := by
    show responsePhase (prePhase (scenarioA deA) (scenarioB deB) 0.016 1).1
        (prePhase (scenarioA deA) (scenarioB deB) 0.016 1).2 =
      prePhase (scenarioA deA) (scenarioB deB) 0.016 1
    rw [hpre]
    apply responsePhase_far
    simp only [broadDist, length]
    rw [key]
    nlinarith [c6v_small, c6v_pos]
  rw [hstep, hpre]
  exact ⟨c6v_pos, neg_lt_zero.mpr c6v_pos, rfl, rfl⟩

end Metharizon
